import Mathlib

/-!
# Verification of the ai-agent-cloudrun HTTP service

Shallow embedding of `app/main.py`: a FastAPI application with two routes.

* `POST /generate` — deserializes the JSON body into the pydantic model
  `Prompt` (a single required text field `message`), constructs an OpenAI
  client with `api_key = os.getenv("OPENAI_API_KEY")`, issues one chat
  completion with the hardcoded model `"gpt-3.5-turbo"` and the single
  message `{"role": "user", "content": prompt.message}`, and returns
  `{"reply": response.choices[0].message.content}`.
* `GET /health` — returns `{"status": "ok"}`.

The downstream chat-completion API is modelled as an oracle
`Downstream : ChatRequest → Except ApiError ChatCompletion`; the process
environment as `Env : String → Option String` (the value visible at the
time of the request). The handler returns, besides the HTTP outcome, the
list of downstream requests it issued, so that call counts are provable.
Unhandled Python exceptions (a raised API error, or the `IndexError` from
the unguarded `choices[0]`) surface through FastAPI's default behaviour as
a 500 response, modelled by `HttpResponse.serverError`; pydantic
validation failure surfaces as a 422, modelled by
`HttpResponse.validationError`.
-/

namespace AiAgentCloudrun

/-- JSON values, as decoded from an HTTP request or encoded into a
response body. Objects are finite lists of key/value pairs. -/
inductive Json where
  | null : Json
  | bool (b : Bool) : Json
  | num (n : Int) : Json
  | str (s : String) : Json
  | arr (elems : List Json) : Json
  | obj (fields : List (String × Json)) : Json

/-- Field lookup on a JSON value: the value of key `k` when the value is
an object containing `k`, and `none` otherwise. -/
def Json.getField : Json → String → Option Json
  | .obj fields, k => fields.lookup k
  | _, _ => none

/-- The pydantic request model of `app/main.py`:
`class Prompt(BaseModel): message: str`. -/
structure Prompt where
  message : String
deriving DecidableEq, Repr

/-- Pydantic validation of the request body against `Prompt`: the body
must carry a field `message` whose value is a JSON string (pydantic does
not coerce numbers, booleans or null to `str`, and by default ignores
extra fields). Any other body fails validation. -/
def parsePrompt (body : Json) : Option Prompt :=
  match body.getField "message" with
  | some (Json.str s) => some ⟨s⟩
  | _ => none

/-- One conversation message sent to the chat-completion API, as built by
the dict literal `{"role": "user", "content": prompt.message}`. -/
structure ChatMessage where
  role : String
  content : String
deriving DecidableEq, Repr

/-- The message inside one returned choice; `content` is `None`-able in
the OpenAI response schema. -/
structure CompletionMessage where
  content : Option String
deriving DecidableEq, Repr

/-- One choice of a chat-completion response. -/
structure Choice where
  message : CompletionMessage
deriving DecidableEq, Repr

/-- A successful chat-completion response: a list of choices. -/
structure ChatCompletion where
  choices : List Choice
deriving DecidableEq, Repr

/-- The observable content of one downstream call:
the credential the client was constructed with (`OpenAI(api_key=...)`,
where a missing environment variable gives `None`), the requested model,
and the message list. -/
structure ChatRequest where
  api_key : Option String
  model : String
  messages : List ChatMessage
deriving DecidableEq, Repr

/-- Failure modes of the downstream call, raised as exceptions by the
OpenAI client: missing/invalid credential, network failure, or an
API-side error status. The handler never inspects these. -/
inductive ApiError where
  | authenticationError : ApiError
  | connectionError : ApiError
  | apiStatusError (code : Nat) : ApiError
deriving DecidableEq, Repr

/-- The process environment at the time of a request: `os.getenv`. -/
def Env : Type := String → Option String

/-- The downstream chat-completion API as an oracle: a call either raises
an error or returns a completion. -/
def Downstream : Type := ChatRequest → Except ApiError ChatCompletion

/-- HTTP outcomes of a handler under FastAPI's default behaviour:
a 200 with a JSON body, a 422 pydantic validation error, or a 500 from an
unhandled exception. -/
inductive HttpResponse where
  | ok (body : Json) : HttpResponse
  | validationError : HttpResponse
  | serverError : HttpResponse

/-- Encoding of the extracted `message.content` into the `reply` value:
Python `None` serialises to JSON `null`, a string to a JSON string. -/
def contentToJson : Option String → Json
  | none => Json.null
  | some s => Json.str s

/-- The single downstream request issued by `generate_response` for a
validated prompt: credential read from the environment at request time,
hardcoded model `"gpt-3.5-turbo"`, and exactly one `"user"` message whose
content is the prompt text. -/
def chatRequestOf (env : Env) (prompt : Prompt) : ChatRequest :=
  { api_key := env "OPENAI_API_KEY"
    model := "gpt-3.5-turbo"
    messages := [{ role := "user", content := prompt.message }] }

/-- The `POST /generate` route: pydantic validation of the body into
`Prompt` (422 on failure, before any downstream call), then the body of
`generate_response`: construct the client from `os.getenv("OPENAI_API_KEY")`,
issue the single chat-completion call, extract
`response.choices[0].message.content` (an `IndexError` when `choices` is
empty is an unhandled exception, hence a 500), and return
`{"reply": <content>}`. The second component is the list of downstream
requests issued while handling the request. -/
def handleGenerate (env : Env) (downstream : Downstream) (body : Json) :
    HttpResponse × List ChatRequest :=
  match parsePrompt body with
  | none => (.validationError, [])
  | some prompt =>
    let req := chatRequestOf env prompt
    match downstream req with
    | .error _ => (.serverError, [req])
    | .ok response =>
      match response.choices.head? with
      | none => (.serverError, [req])
      | some choice =>
        (.ok (Json.obj [("reply", contentToJson choice.message.content)]), [req])

/-- The response body of the `/health` route: `{"status": "ok"}`. -/
def health_check : Json := Json.obj [("status", Json.str "ok")]

/-- The `GET /health` route: returns `{"status": "ok"}` unconditionally;
it consults neither the environment nor the downstream API and issues no
downstream calls. -/
def handleHealth (_env : Env) (_downstream : Downstream) :
    HttpResponse × List ChatRequest :=
  (.ok health_check, [])

/-! ## Concrete fixtures for witnesses -/

/-- A concrete environment holding a credential. -/
def envWithKey : Env := fun k => if k = "OPENAI_API_KEY" then some "sk-test" else none

/-- A concrete environment holding no credential at all. -/
def envEmpty : Env := fun _ => none

/-- A concrete downstream API that always answers with one choice
whose content is `"Hi"`. -/
def dsHi : Downstream :=
  fun _ => .ok { choices := [{ message := { content := some "Hi" } }] }

/-- A concrete downstream API that always raises an authentication
error. -/
def dsFail : Downstream := fun _ => .error .authenticationError

/-- A concrete downstream API whose single choice carries no content. -/
def dsNullContent : Downstream :=
  fun _ => .ok { choices := [{ message := { content := none } }] }

/-- A concrete downstream API that returns an empty choices list. -/
def dsNoChoices : Downstream := fun _ => .ok { choices := [] }

/-- A concrete valid request body. -/
def bodyHello : Json := Json.obj [("message", Json.str "Hello")]

/-! ## Helper lemmas -/

/-- Once the body validates to `prompt`, `handleGenerate` issues the one
downstream request `chatRequestOf env prompt` and its outcome is
determined by the oracle's answer on that request. -/
theorem handleGenerate_eq_of_parse (env : Env) (downstream : Downstream)
    (body : Json) (prompt : Prompt) (h : parsePrompt body = some prompt) :
    handleGenerate env downstream body =
      match downstream (chatRequestOf env prompt) with
      | .error _ => (.serverError, [chatRequestOf env prompt])
      | .ok response =>
        match response.choices.head? with
        | none => (.serverError, [chatRequestOf env prompt])
        | some choice =>
          (.ok (Json.obj [("reply", contentToJson choice.message.content)]),
           [chatRequestOf env prompt]) := by
  simp [handleGenerate, h]

/-- Once the body validates, the list of issued downstream requests is
exactly the singleton `chatRequestOf env prompt`, whatever the oracle
answers. -/
theorem handleGenerate_snd_of_parse (env : Env) (downstream : Downstream)
    (body : Json) (prompt : Prompt) (h : parsePrompt body = some prompt) :
    (handleGenerate env downstream body).2 = [chatRequestOf env prompt] := by
  rw [handleGenerate_eq_of_parse env downstream body prompt h]
  cases downstream (chatRequestOf env prompt) with
  | error e => rfl
  | ok response => cases hr : response.choices.head? <;> simp [hr]

/-! ## Claims -/

/-- Claim C1: for every request body whose `message` field decodes to
text, `/generate` issues exactly one downstream chat-completion call,
whose message list contains exactly one message with role `"user"` and
content equal to the input text (no system prompt, no history), and —
when the downstream response has a first choice with text content — the
handler returns that text unmodified as the value of `reply`. -/
theorem generate_single_user_call (env : Env) (downstream : Downstream)
    (body : Json) (msg : String) (h : parsePrompt body = some ⟨msg⟩) :
    (handleGenerate env downstream body).2.length = 1 ∧
    (∀ req ∈ (handleGenerate env downstream body).2,
        req.messages = [{ role := "user", content := msg }]) ∧
    (∀ resp choice rest t,
        downstream (chatRequestOf env ⟨msg⟩) = .ok resp →
        resp.choices = choice :: rest →
        choice.message.content = some t →
        (handleGenerate env downstream body).1 =
          .ok (Json.obj [("reply", Json.str t)])) := by
  refine ⟨?_, ?_, ?_⟩
  · rw [handleGenerate_snd_of_parse env downstream body ⟨msg⟩ h]
    rfl
  · rw [handleGenerate_snd_of_parse env downstream body ⟨msg⟩ h]
    intro req hreq
    rw [List.mem_singleton] at hreq
    subst hreq
    rfl
  · intro resp choice rest t hd hc ht
    rw [handleGenerate_eq_of_parse env downstream body ⟨msg⟩ h, hd]
    simp [hc, ht, contentToJson]

/-- Closed witness for C1: on the body `{"message": "Hello"}` with a
downstream stub answering `"Hi"`, one call is issued and the response is
`{"reply": "Hi"}`. -/
theorem generate_single_user_call_witness :
    (handleGenerate envWithKey dsHi bodyHello).2.length = 1 ∧
    (handleGenerate envWithKey dsHi bodyHello).1 =
      .ok (Json.obj [("reply", Json.str "Hi")]) :=
  ⟨(generate_single_user_call envWithKey dsHi bodyHello "Hello" rfl).1,
   (generate_single_user_call envWithKey dsHi bodyHello "Hello" rfl).2.2
     { choices := [{ message := { content := some "Hi" } }] }
     { message := { content := some "Hi" } } [] "Hi" rfl rfl rfl⟩

/-- Claim C2: `/generate` returns a validation error and issues zero
downstream calls exactly when the body has no `message` field of text
type; conversely every text value of `message` (the empty string
included, with no further constraint) validates, and the request reaches
the downstream call. -/
theorem generate_validation_iff (env : Env) (downstream : Downstream)
    (body : Json) :
    (((handleGenerate env downstream body).1 = .validationError ∧
        (handleGenerate env downstream body).2 = []) ↔
      ∀ s, body.getField "message" ≠ some (Json.str s)) ∧
    ∀ s, body.getField "message" = some (Json.str s) →
      parsePrompt body = some ⟨s⟩ ∧
        (handleGenerate env downstream body).2.length = 1 := by
  constructor
  · constructor
    · rintro ⟨h1, h2⟩ s hs
      have hp : parsePrompt body = some ⟨s⟩ := by simp [parsePrompt, hs]
      rw [handleGenerate_snd_of_parse env downstream body ⟨s⟩ hp] at h2
      simp at h2
    · intro hnone
      have hp : parsePrompt body = none := by
        unfold parsePrompt
        cases hg : body.getField "message" with
        | none => rfl
        | some j =>
          cases j with
          | null => rfl
          | bool b => rfl
          | num n => rfl
          | str s => exact absurd hg (hnone s)
          | arr xs => rfl
          | obj fs => rfl
      refine ⟨?_, ?_⟩ <;> simp [handleGenerate, hp]
  · intro s hs
    have hp : parsePrompt body = some ⟨s⟩ := by simp [parsePrompt, hs]
    refine ⟨hp, ?_⟩
    rw [handleGenerate_snd_of_parse env downstream body ⟨s⟩ hp]
    rfl

/-- Closed witness for C2: the body `{}` is rejected with a validation
error and zero downstream calls, while the body with the empty-string
message validates and issues one call. -/
theorem generate_validation_iff_witness :
    ((handleGenerate envWithKey dsHi (Json.obj [])).1 = .validationError ∧
      (handleGenerate envWithKey dsHi (Json.obj [])).2 = []) ∧
    (parsePrompt (Json.obj [("message", Json.str "")]) = some ⟨""⟩ ∧
      (handleGenerate envWithKey dsHi
        (Json.obj [("message", Json.str "")])).2.length = 1) :=
  ⟨(generate_validation_iff envWithKey dsHi (Json.obj [])).1.mpr
      (by intro s hs; simp [Json.getField] at hs),
   (generate_validation_iff envWithKey dsHi
      (Json.obj [("message", Json.str "")])).2 "" rfl⟩

/-- Claim C3: `/health` returns exactly `{"status": "ok"}` with a
success status, performs no downstream calls and cannot fail, whatever
the environment (credential present or absent) and whatever the
downstream API would do. -/
theorem health_always_ok (env : Env) (downstream : Downstream) :
    handleHealth env downstream =
      (.ok (Json.obj [("status", Json.str "ok")]), []) := rfl

/-- Claim C4: when the downstream completion call fails, the failure
propagates unmodified out of `/generate` — no retry (the single call
remains the only one issued), no error translation — and the endpoint
returns a server error, whose response carries no `reply` field. -/
theorem generate_downstream_failure (env : Env) (downstream : Downstream)
    (body : Json) (prompt : Prompt) (e : ApiError)
    (hp : parsePrompt body = some prompt)
    (hd : downstream (chatRequestOf env prompt) = .error e) :
    handleGenerate env downstream body =
      (.serverError, [chatRequestOf env prompt]) := by
  rw [handleGenerate_eq_of_parse env downstream body prompt hp, hd]

/-- Closed witness for C4: with no credential and a downstream stub
raising an authentication error, `/generate` on `{"message": "Hello"}`
returns a server error after its single call. -/
theorem generate_downstream_failure_witness :
    handleGenerate envEmpty dsFail bodyHello =
      (.serverError, [chatRequestOf envEmpty ⟨"Hello"⟩]) :=
  generate_downstream_failure envEmpty dsFail bodyHello ⟨"Hello"⟩
    .authenticationError rfl rfl

/-- Claim C5: the completion-API credential is read from the process
environment anew on every invocation of `/generate`: whichever
environment is in force for a given request, the single call issued by
that request carries exactly that environment's value of
`OPENAI_API_KEY` — shown here for two invocations under two different
environments. -/
theorem credential_read_per_request (env1 env2 : Env)
    (downstream : Downstream) (body : Json) (prompt : Prompt)
    (hp : parsePrompt body = some prompt) :
    (∀ req ∈ (handleGenerate env1 downstream body).2,
        req.api_key = env1 "OPENAI_API_KEY") ∧
    (∀ req ∈ (handleGenerate env2 downstream body).2,
        req.api_key = env2 "OPENAI_API_KEY") := by
  constructor <;>
  · rw [handleGenerate_snd_of_parse _ downstream body prompt hp]
    intro req hreq
    rw [List.mem_singleton] at hreq
    subst hreq
    rfl

/-- Closed witness for C5: the same request issued once with a
credential in the environment and once without carries, respectively,
that credential and no credential. -/
theorem credential_read_per_request_witness :
    (chatRequestOf envWithKey ⟨"Hello"⟩).api_key = envWithKey "OPENAI_API_KEY" ∧
    (chatRequestOf envEmpty ⟨"Hello"⟩).api_key = envEmpty "OPENAI_API_KEY" :=
  ⟨(credential_read_per_request envWithKey envEmpty dsHi bodyHello ⟨"Hello"⟩ rfl).1
      (chatRequestOf envWithKey ⟨"Hello"⟩) (List.Mem.head _),
   (credential_read_per_request envWithKey envEmpty dsHi bodyHello ⟨"Hello"⟩ rfl).2
      (chatRequestOf envEmpty ⟨"Hello"⟩) (List.Mem.head _)⟩

/-- Claim C6: every downstream call issued by `/generate` — on any body,
any environment and any downstream behaviour — requests the fixed,
hardcoded model `"gpt-3.5-turbo"`; no request input can change it. -/
theorem model_fixed (env : Env) (downstream : Downstream) (body : Json) :
    ∀ req ∈ (handleGenerate env downstream body).2,
      req.model = "gpt-3.5-turbo" := by
  cases hp : parsePrompt body with
  | none =>
    intro req hreq
    simp [handleGenerate, hp] at hreq
  | some prompt =>
    rw [handleGenerate_snd_of_parse env downstream body prompt hp]
    intro req hreq
    rw [List.mem_singleton] at hreq
    subst hreq
    rfl

/-- Closed witness for C6: the call issued for `{"message": "Hello"}`
requests the model `"gpt-3.5-turbo"`. -/
theorem model_fixed_witness :
    (chatRequestOf envWithKey ⟨"Hello"⟩).model = "gpt-3.5-turbo" :=
  model_fixed envWithKey dsHi bodyHello
    (chatRequestOf envWithKey ⟨"Hello"⟩) (List.Mem.head _)

/-- Claim C7: an absent credential is not validated upfront —
`/generate` proceeds past the credential lookup and client construction,
issuing its downstream call with no credential (`api_key = none`), never
returning a request-validation error for a body that validates; the
absence surfaces only when the downstream call itself fails, as a server
error. -/
theorem absent_credential_not_upfront (env : Env) (downstream : Downstream)
    (body : Json) (prompt : Prompt)
    (hk : env "OPENAI_API_KEY" = none)
    (hp : parsePrompt body = some prompt) :
    (handleGenerate env downstream body).1 ≠ .validationError ∧
    (handleGenerate env downstream body).2 =
      [{ api_key := none, model := "gpt-3.5-turbo"
         messages := [{ role := "user", content := prompt.message }] }] ∧
    ∀ e, downstream (chatRequestOf env prompt) = .error e →
      (handleGenerate env downstream body).1 = .serverError := by
  refine ⟨?_, ?_, ?_⟩
  · rw [handleGenerate_eq_of_parse env downstream body prompt hp]
    cases hds : downstream (chatRequestOf env prompt) with
    | error e => simp
    | ok response => cases hr : response.choices.head? <;> simp [hr]
  · rw [handleGenerate_snd_of_parse env downstream body prompt hp]
    simp [chatRequestOf, hk]
  · intro e hd
    rw [handleGenerate_eq_of_parse env downstream body prompt hp, hd]

/-- Closed witness for C7: with an empty environment and a downstream
stub raising an authentication error, `/generate` on
`{"message": "Hello"}` issues its call with `api_key = none` and returns
a server error, not a validation error. -/
theorem absent_credential_not_upfront_witness :
    (handleGenerate envEmpty dsFail bodyHello).1 ≠ .validationError ∧
    (handleGenerate envEmpty dsFail bodyHello).2 =
      [{ api_key := none, model := "gpt-3.5-turbo"
         messages := [{ role := "user", content := "Hello" }] }] ∧
    (handleGenerate envEmpty dsFail bodyHello).1 = .serverError :=
  have h := absent_credential_not_upfront envEmpty dsFail bodyHello
    ⟨"Hello"⟩ rfl rfl
  ⟨h.1, h.2.1, h.2.2 .authenticationError rfl⟩

/-- Claim C8: when the upstream call succeeds and the first choice
carries no content, the success response still carries the `reply` field,
with value `null`, and the body consists of exactly that one field. -/
theorem null_reply_on_missing_content (env : Env) (downstream : Downstream)
    (body : Json) (prompt : Prompt) (resp : ChatCompletion)
    (choice : Choice) (rest : List Choice)
    (hp : parsePrompt body = some prompt)
    (hd : downstream (chatRequestOf env prompt) = .ok resp)
    (hc : resp.choices = choice :: rest)
    (hn : choice.message.content = none) :
    (handleGenerate env downstream body).1 =
      .ok (Json.obj [("reply", Json.null)]) := by
  rw [handleGenerate_eq_of_parse env downstream body prompt hp, hd]
  simp [hc, hn, contentToJson]

/-- Closed witness for C8: a downstream stub whose single choice has no
content makes `/generate` answer `{"reply": null}`. -/
theorem null_reply_on_missing_content_witness :
    (handleGenerate envWithKey dsNullContent bodyHello).1 =
      .ok (Json.obj [("reply", Json.null)]) :=
  null_reply_on_missing_content envWithKey dsNullContent bodyHello
    ⟨"Hello"⟩ { choices := [{ message := { content := none } }] }
    { message := { content := none } } [] rfl rfl rfl rfl

/-- Claim C9 (implicit): extraction of the first choice is by unguarded
indexing, so it only succeeds when the upstream response has at least one
choice; on an upstream success with an empty choices list the extraction
fails and surfaces as a server error, not as a null or default reply. -/
theorem empty_choices_server_error (env : Env) (downstream : Downstream)
    (body : Json) (prompt : Prompt) (resp : ChatCompletion)
    (hp : parsePrompt body = some prompt)
    (hd : downstream (chatRequestOf env prompt) = .ok resp)
    (hc : resp.choices = []) :
    (handleGenerate env downstream body).1 = .serverError := by
  rw [handleGenerate_eq_of_parse env downstream body prompt hp, hd]
  simp [hc]

/-- Closed witness for C9: a downstream stub returning zero choices
makes `/generate` answer with a server error. -/
theorem empty_choices_server_error_witness :
    (handleGenerate envWithKey dsNoChoices bodyHello).1 = .serverError :=
  empty_choices_server_error envWithKey dsNoChoices bodyHello
    ⟨"Hello"⟩ { choices := [] } rfl rfl rfl

/-- Claim C10 (implicit): a body that carries a text `message` field
together with any additional fields is accepted — the extra fields are
ignored by validation and the request behaves exactly as the body with
only the `message` field, both in the downstream call and in the
response. -/
theorem extra_fields_ignored (env : Env) (downstream : Downstream)
    (fields : List (String × Json)) (s : String)
    (h : (Json.obj fields).getField "message" = some (Json.str s)) :
    parsePrompt (Json.obj fields) = some ⟨s⟩ ∧
    handleGenerate env downstream (Json.obj fields) =
      handleGenerate env downstream (Json.obj [("message", Json.str s)]) := by
  have hp : parsePrompt (Json.obj fields) = some ⟨s⟩ := by
    simp [parsePrompt, h]
  refine ⟨hp, ?_⟩
  have hp2 : parsePrompt (Json.obj [("message", Json.str s)]) =
      some (⟨s⟩ : Prompt) := rfl
  rw [handleGenerate_eq_of_parse env downstream _ ⟨s⟩ hp,
      handleGenerate_eq_of_parse env downstream _ ⟨s⟩ hp2]

/-- Closed witness for C10: adding an unexpected field `"extra": 7` to
`{"message": "Hello"}` changes nothing in the handling. -/
theorem extra_fields_ignored_witness :
    parsePrompt (Json.obj [("message", Json.str "Hello"), ("extra", Json.num 7)]) =
      some ⟨"Hello"⟩ ∧
    handleGenerate envWithKey dsHi
        (Json.obj [("message", Json.str "Hello"), ("extra", Json.num 7)]) =
      handleGenerate envWithKey dsHi (Json.obj [("message", Json.str "Hello")]) :=
  extra_fields_ignored envWithKey dsHi
    [("message", Json.str "Hello"), ("extra", Json.num 7)] "Hello" rfl

end AiAgentCloudrun
